/-
Verification of the construction cost analyzer (Flask application).

Shallow embedding of `app/data_manager.py`, `app/routes.py` and
`app/template_filters.py`:
  - Python floats are modelled as rationals (`ℚ`); Python's `str(float)`
    round-trips exactly, so a CSV cell produced by writing a float is
    modelled as carrying its value.
  - form data (`request.form`) is modelled as an ordered association list
    of string pairs, the items view of the request MultiDict;
  - Python dicts are modelled as ordered association lists with
    first-occurrence lookup and update-in-place-or-append insertion;
  - scalar Python values (the cells of CSV rows and of work item line
    dicts) are modelled by `PyVal`, strings or numbers, with Python's
    cross-type equality (a string never equals a number);
  - fallible code (uncaught `ValueError` / `KeyError`) is modelled with
    `Option` / `Except`.
-/
import Mathlib

/-! ## Ordered association lists (Python dict model) -/

/-- First-occurrence lookup, as Python dict lookup (keys are unique in
dicts the code builds). -/
def aGet {κ α : Type} [DecidableEq κ] : List (κ × α) → κ → Option α
  | [], _ => none
  | (k, v) :: rest, key => if k = key then some v else aGet rest key

/-- `d[k] = v`: update the first occurrence in place, else append —
Python dict insertion order semantics. -/
def aSet {κ α : Type} [DecidableEq κ] : List (κ × α) → κ → α → List (κ × α)
  | [], key, v => [(key, v)]
  | (k, w) :: rest, key, v =>
    if k = key then (key, v) :: rest else (k, w) :: aSet rest key v

/-- `d.pop(k)` (the removal part): drop entries with the given key. -/
def aErase {κ α : Type} [DecidableEq κ] : List (κ × α) → κ → List (κ × α)
  | [], _ => []
  | (k, w) :: rest, key =>
    if k = key then aErase rest key else (k, w) :: aErase rest key

/-- `d.get(k, default)`. -/
def aGetD {κ α : Type} [DecidableEq κ] (d : List (κ × α)) (key : κ) (dflt : α) : α :=
  (aGet d key).getD dflt

/-- Update the value at a key with `f`, inserting `dflt` when the key is
absent — the `defaultdict`-style access pattern of `parse_form_data`. -/
def aUpd {κ α : Type} [DecidableEq κ] : List (κ × α) → κ → (α → α) → α → List (κ × α)
  | [], key, _, dflt => [(key, dflt)]
  | (k, w) :: rest, key, f, dflt =>
    if k = key then (k, f w) :: rest else (k, w) :: aUpd rest key f dflt

deriving instance DecidableEq for Except

/-! ## Python scalar values -/

/-- A scalar Python value: a string or a number (int and float collapsed,
as Python numeric equality does across the two). A string never equals a
number, as in Python. -/
inductive PyVal : Type where
  | str : String → PyVal
  | num : ℚ → PyVal
  deriving DecidableEq, Repr

/-- Python dict with string keys and scalar values: a CSV row, or one
line dict of a processed work item. -/
abbrev PyDict := List (String × PyVal)

/-! ## Python string and number coercions -/

/-- Whitespace stripped by Python's `float()` / `int()`. -/
def isPySpace (c : Char) : Bool :=
  c = ' ' || c = '\t' || c = '\n' || c = '\r' || c = '\x0b' || c = '\x0c'

/-- `s.strip()` on a character list. -/
def stripChars (cs : List Char) : List Char :=
  ((cs.dropWhile isPySpace).reverse.dropWhile isPySpace).reverse

/-- Numeric value of a digit string. -/
def digitsToNat (cs : List Char) : ℕ :=
  cs.foldl (fun a c => a * 10 + (c.toNat - 48)) 0

def allDigits (cs : List Char) : Bool :=
  cs.all (fun c => c.isDigit)

/-- Leading sign of a numeric literal: negative flag and the rest. -/
def splitSign : List Char → Bool × List Char
  | '+' :: rest => (false, rest)
  | '-' :: rest => (true, rest)
  | cs => (false, cs)

/-- Split a character list on a separator predicate (used for the `e` and
`.` of float literals). -/
def splitOnPred (p : Char → Bool) : List Char → List (List Char)
  | [] => [[]]
  | c :: rest =>
    let r := splitOnPred p rest
    if p c then [] :: r
    else
      match r with
      | [] => [[c]]
      | h :: t => (c :: h) :: t

/-- Mantissa of a Python float literal: `digits`, `digits.`, `.digits` or
`digits.digits`, as an integer numerator and a power-of-ten denominator
exponent. -/
def parseMantissa (cs : List Char) : Option (ℕ × ℕ) :=
  match splitOnPred (fun c => c = '.') cs with
  | [ip] => if ip ≠ [] ∧ allDigits ip then some (digitsToNat ip, 0) else none
  | [ip, fp] =>
    if (ip ≠ [] ∨ fp ≠ []) ∧ allDigits ip ∧ allDigits fp then
      some (digitsToNat ip * 10 ^ fp.length + digitsToNat fp, fp.length)
    else none
  | _ => none

/-- Exponent part of a Python float literal: negative flag and magnitude. -/
def parseExponent (cs : List Char) : Option (Bool × ℕ) :=
  let (sg, ds) := splitSign cs
  if ds ≠ [] ∧ allDigits ds then some (sg, digitsToNat ds) else none

/-- Assemble `±(n / 10^s) * 10^(±e)` as a rational via `mkRat`. -/
def assembleRat (neg : Bool) (n : ℕ) (s : ℕ) (eneg : Bool) (e : ℕ) : ℚ :=
  let num : Int := if neg then -(n : Int) else (n : Int)
  if eneg then mkRat num (10 ^ (s + e)) else mkRat (num * (10 ^ e : ℕ)) (10 ^ s)

/-- Core of `float(s)` after stripping: signed decimal numeral with an
optional exponent. -/
def pyFloatCore (cs : List Char) : Option ℚ :=
  let (sg, body) := splitSign cs
  match splitOnPred (fun c => c = 'e' || c = 'E') body with
  | [mant] => (parseMantissa mant).map (fun p => assembleRat sg p.1 p.2 false 0)
  | [mant, ex] =>
    match parseMantissa mant, parseExponent ex with
    | some p, some q => some (assembleRat sg p.1 p.2 q.1 q.2)
    | _, _ => none
  | _ => none

/-- Python `float(s)`: `some q` when the string is a decimal numeral,
`none` when `float` raises `ValueError`. -/
def pyFloatOfString (s : String) : Option ℚ :=
  let cs := stripChars s.data
  if cs = [] then none else pyFloatCore cs

/-- Python `int(s)`: optional sign and a nonempty digit string. -/
def pyIntOfString (s : String) : Option Int :=
  let cs := stripChars s.data
  let (sg, ds) := splitSign cs
  if ds ≠ [] ∧ allDigits ds then
    some (if sg then -(digitsToNat ds : Int) else (digitsToNat ds : Int))
  else none

/-- Python `int()` truncation toward zero on a rational
(`Int.tdiv` truncates toward zero; the denominator is positive). -/
def ratTrunc (q : ℚ) : Int :=
  q.num.tdiv (q.den : Int)

/-!
Computable counterparts of `+`, `*`, `/` on `ℚ`, built from `mkRat`
(`Rat.add`/`Rat.mul`/`Rat.div` are `@[irreducible]`, which blocks the
concrete evaluation the witnesses need). `qAdd_eq`, `qMul_eq` and
`qDiv_eq` below prove them equal to the field operations.
-/

/-- `a + b` via `mkRat`. -/
def qAdd (a b : ℚ) : ℚ :=
  mkRat (a.num * (b.den : Int) + b.num * (a.den : Int)) (a.den * b.den)

/-- `a * b` via `mkRat`. -/
def qMul (a b : ℚ) : ℚ :=
  mkRat (a.num * b.num) (a.den * b.den)

/-- `b⁻¹` via `mkRat`. -/
def qInv (b : ℚ) : ℚ :=
  mkRat (Int.sign b.num * (b.den : Int)) b.num.natAbs

/-- `a / b` via `mkRat`. -/
def qDiv (a b : ℚ) : ℚ :=
  qMul a (qInv b)

/-- Python `float(x)` on a scalar value: identity on numbers, numeral
parsing on strings (`ValueError` is `none`). -/
def pyFloat : PyVal → Option ℚ
  | .num q => some q
  | .str s => pyFloatOfString s

/-- Python `int(x)` on a scalar value. -/
def pyInt : PyVal → Option Int
  | .num q => some (ratTrunc q)
  | .str s => pyIntOfString s

/-- `str.lower()` (ASCII, the alphabet the data uses). -/
def pyLowerStr (s : String) : String :=
  ⟨s.data.map Char.toLower⟩

/-- `str.isupper()`: at least one cased character and no lowercase
character. -/
def pyIsUpper (s : String) : Bool :=
  s.data.any (fun c => c.isUpper) && s.data.all (fun c => !c.isLower)

/-- `str.capitalize()`: first character uppercased, the rest lowercased. -/
def pyCapitalize (s : String) : String :=
  match s.data with
  | [] => ⟨[]⟩
  | c :: rest => ⟨c.toUpper :: rest.map Char.toLower⟩

/-! ## `app/template_filters.py`: `format_unit` -/

/-- `format_unit` from `app/template_filters.py`: non-string input is
returned unchanged; a string starting (case-insensitively) with `Per` is
stripped of its first three characters, the remainder lowercased when it
`isupper()` or has at most two characters, and prefixed with `1 `; any
other string is prefixed with `1 ` unchanged. -/
def formatUnit (v : PyVal) : PyVal :=
  match v with
  | .num n => .num n
  | .str value =>
    if ['p', 'e', 'r'].isPrefixOf (pyLowerStr value).data then
      let unitName : String := ⟨value.data.drop 3⟩
      let unitName :=
        if pyIsUpper unitName || unitName.data.length ≤ 2 then pyLowerStr unitName else unitName
      .str ⟨'1' :: ' ' :: unitName.data⟩
    else .str ⟨'1' :: ' ' :: value.data⟩


/-! ## `app/data_manager.py`: master inventory CSV store -/

/-- A master catalog file: `none` when the file is missing
(`FileNotFoundError`); otherwise the list of rows as `csv.DictReader`
yields them. A cell written by `csv` from a float value reads back as a
string that `float()` parses to the same value, so such a cell is
modelled by `PyVal.num` of that value. -/
abbrev CsvFile := List PyDict

/-- Process a single row of `_load_master_csv` (lines 39-59 of
`data_manager.py`): canonicalize `id` from `SerialNo` (or a fresh uuid),
coerce `Price` with `float()` (an uncaught `ValueError` aborts the whole
load), and rename the category-specific type column to `name`. -/
def loadRow (itemType : String) (fresh : String) (row : PyDict) : Except String PyDict :=
  let row :=
    match aGet row "SerialNo" with
    | some v => aSet row "id" v
    | none => aSet row "id" (.str fresh)
  match pyFloat (aGetD row "Price" (.num 0)) with
  | none => .error "ValueError: could not convert string to float"
  | some p =>
    let row := aSet row "Price" (.num p)
    let typeKey := pyCapitalize itemType ++ "Type"
    let row :=
      match aGet row typeKey with
      | some v => aSet (aErase row typeKey) "name" v
      | none =>
        match aGet row "Type" with
        | some v => aSet (aErase row "Type") "name" v
        | none => row
    .ok row

/-- The row loop of `_load_master_csv`, with the index used to draw
fresh uuids from the oracle `fresh`. -/
def loadRows (itemType : String) (fresh : ℕ → String) : ℕ → List PyDict → Except String (List PyDict)
  | _, [] => .ok []
  | i, r :: rs =>
    match loadRow itemType (fresh i) r with
    | .error e => .error e
    | .ok r2 =>
      match loadRows itemType fresh (i + 1) rs with
      | .error e => .error e
      | .ok rs2 => .ok (r2 :: rs2)

/-- `_load_master_csv`: a missing file loads as the empty catalog. -/
def loadMasterCsv (itemType : String) (file : Option CsvFile) (fresh : ℕ → String) :
    Except String (List PyDict) :=
  match file with
  | none => .ok []
  | some rows => loadRows itemType fresh 0 rows

/-- `_save_master_csv`: empty data writes a header-only file; otherwise
each row is written under the fixed header, with the canonical `name`
field renamed back to the category-specific type column. A missing value
(`row.get(k)` returning `None`) is written by `csv` as an empty cell. -/
def saveMasterCsv (itemType : String) (data : List PyDict) : CsvFile :=
  if data = [] then []
  else
    let typeKey := pyCapitalize itemType ++ "Type"
    data.map (fun row =>
      [("SerialNo", aGetD row "id" (.str "")),
       (typeKey, aGetD row "name" (.str "")),
       ("Unit", aGetD row "Unit" (.str "")),
       ("Price", aGetD row "Price" (.str ""))])

/-- The id-generation scan of `add_master_item` (lines 107-114): parse
each item's `id` as an integer where possible, fold with `max` starting
from `0`, and add `1`. -/
def newMasterId (allItems : List PyDict) : String :=
  let maxId := allItems.foldl (fun m it =>
    match pyInt (aGetD it "id" (.num 0)) with
    | some n => max m n
    | none => m) 0
  toString (maxId + 1)

/-! ## `app/data_manager.py`: JSON document model -/

/-- A work item as stored in `data.json`: every field the code reads via
`.get`/`in` checks is optional, so that legacy records missing
`basis_quantity` or `price_per_unit` are representable. The three line
lists hold the snapshot dicts built by `process_work_item_form`. -/
structure StoredWorkItem where
  id : Option String := none
  name : Option PyVal := none
  unit_of_measure : Option PyVal := none
  basis_quantity : Option ℚ := none
  price_per_unit : Option ℚ := none
  sum_total : Option ℚ := none
  labor : List PyDict := []
  material : List PyDict := []
  equipment : List PyDict := []
  labor_total : Option ℚ := none
  material_total : Option ℚ := none
  equipment_total : Option ℚ := none
  total_cost_per_unit : Option ℚ := none
  contractor_overhead_15_percent : Option ℚ := none
  deriving DecidableEq, Repr

/-- A category record of `data.json`. -/
structure Category where
  id : Option String := none
  name : String := ""
  work_items : List StoredWorkItem := []
  deriving DecidableEq, Repr

/-- A project line as stored in `data.json` (built by
`add_item_to_project`). -/
structure ProjectLine where
  instance_id : String
  work_item_id : Option String
  name : Option PyVal
  unit_of_measure : Option PyVal
  unit_price : ℚ
  quantity : ℚ
  deriving DecidableEq, Repr

/-- A project record of `data.json`. -/
structure Project where
  id : String
  name : String := ""
  items : List ProjectLine := []
  deriving DecidableEq, Repr

/-- The whole `data.json` document. -/
structure Doc where
  categories : List Category := []
  projects : List Project := []
  deriving DecidableEq, Repr

/-- The file-system state the data manager touches: one CSV file per
item type (key present = file exists) and the JSON document. -/
structure FS where
  csv : List (String × CsvFile)
  doc : Doc
  deriving DecidableEq, Repr

/-- `delete_master_item`: load the catalog, drop rows whose `id` equals
the given id, and rewrite that CSV file only. A load failure
(propagating exception) leaves every file untouched. -/
def deleteMasterItem (itemType itemId : String) (fresh : ℕ → String) (fs : FS) :
    Except String FS :=
  match loadMasterCsv itemType (aGet fs.csv itemType) fresh with
  | .error e => .error e
  | .ok allItems =>
    let itemsToKeep := allItems.filter (fun it => aGet it "id" ≠ some (.str itemId))
    .ok { fs with csv := aSet fs.csv itemType (saveMasterCsv itemType itemsToKeep) }

/-- `add_master_item`: load, generate the next id, append the new item,
save. -/
def addMasterItem (itemType : String) (nm unit : String) (price : ℚ) (fresh : ℕ → String)
    (fs : FS) : Except String FS :=
  match loadMasterCsv itemType (aGet fs.csv itemType) fresh with
  | .error e => .error e
  | .ok allItems =>
    let newItem : PyDict :=
      [("id", .str (newMasterId allItems)), ("name", .str nm),
       ("Unit", .str unit), ("Price", .num price)]
    .ok { fs with
          csv := aSet fs.csv itemType (saveMasterCsv itemType (allItems ++ [newItem])) }

/-- `get_master_item_map`: the dict `{item['id']: item}` over the loaded
catalog (`item['id']` raising `KeyError` is an error; load guarantees the
key). Keys are the Python values stored under `id` — strings for every
row the loader produces. -/
def getMasterItemMap (itemType : String) (file : Option CsvFile) (fresh : ℕ → String) :
    Except String (List (PyVal × PyDict)) :=
  match loadMasterCsv itemType file fresh with
  | .error e => .error e
  | .ok items => buildIdMap items []
where
  buildIdMap : List PyDict → List (PyVal × PyDict) → Except String (List (PyVal × PyDict))
  | [], acc => .ok acc
  | it :: rest, acc =>
    match aGet it "id" with
    | none => .error "KeyError: id"
    | some v => buildIdMap rest (aSet acc v it)

/-! ## `app/data_manager.py`: category / work item / project operations -/

/-- The category loop of `add_work_item_to_category`: append to the
first category whose id matches; `none` means no category matched and
the `break`-guarded `_save_json_data` never ran. -/
def addToFirstCategory (categoryId : String) (workItem : StoredWorkItem) :
    List Category → Option (List Category)
  | [] => none
  | c :: rest =>
    if c.id = some categoryId then
      some ({ c with work_items := c.work_items ++ [workItem] } :: rest)
    else (addToFirstCategory categoryId workItem rest).map (fun cs => c :: cs)

/-- `add_work_item_to_category`: `none` means no category matched, so
`_save_json_data` was never called and the stored document is
untouched. -/
def addWorkItemToCategory (categoryId : String) (workItem : StoredWorkItem) (doc : Doc) :
    Option Doc :=
  (addToFirstCategory categoryId workItem doc.categories).map
    (fun cs => { doc with categories := cs })

/-- The category loop of `update_work_item`: in the first category whose
id matches, replace every work item whose id equals the updated item's
id. -/
def updFirstCategory (categoryId : String) (updatedItem : StoredWorkItem) :
    List Category → Option (List Category)
  | [] => none
  | c :: rest =>
    if c.id = some categoryId then
      some ({ c with work_items :=
        c.work_items.map (fun it => if it.id = updatedItem.id then updatedItem else it) } :: rest)
    else (updFirstCategory categoryId updatedItem rest).map (fun cs => c :: cs)

/-- `update_work_item`. -/
def updateWorkItem (categoryId : String) (updatedItem : StoredWorkItem) (doc : Doc) :
    Option Doc :=
  (updFirstCategory categoryId updatedItem doc.categories).map
    (fun cs => { doc with categories := cs })

/-- The category loop of `delete_work_item`: in the first category whose
id matches, keep the work items whose id differs. -/
def delFirstCategory (categoryId workItemId : String) :
    List Category → Option (List Category)
  | [] => none
  | c :: rest =>
    if c.id = some categoryId then
      some ({ c with work_items :=
        c.work_items.filter (fun it => it.id ≠ some workItemId) } :: rest)
    else (delFirstCategory categoryId workItemId rest).map (fun cs => c :: cs)

/-- `delete_work_item`. -/
def deleteWorkItem (categoryId workItemId : String) (doc : Doc) : Option Doc :=
  (delFirstCategory categoryId workItemId doc.categories).map
    (fun cs => { doc with categories := cs })

/-- `find_work_item_by_id`: flat search across all categories; the
argument is `form.get('work_item_id')`, which can be `None` and then
matches a stored item whose `id` is also missing, as Python `==` does. -/
def findWorkItemById (doc : Doc) (workItemId : Option String) : Option StoredWorkItem :=
  doc.categories.findSome? (fun c => c.work_items.find? (fun it => it.id = workItemId))

/-! ## `app/routes.py`: form parsing and the work item form processor -/

/-- A submitted form: the items view of the request MultiDict (each key
once, first value). -/
abbrev Form := List (String × String)

/-- One parsed line of the form: field name to value. -/
abbrev FormLine := List (String × String)

/-- `form.get(k)`. -/
def formGet (form : Form) (k : String) : Option String :=
  aGet form k

/-- First pass of `parse_form_data`: group the values of keys of the
shape `type-index-field` (exactly three `-`-separated parts) with a
non-empty value into per-`(type, index)` field dicts; the dict key is the
pair, standing for the collision-free f-string `type-index` the source
uses (the parts contain no `-`). -/
def pfdItems (form : Form) : List ((String × String) × FormLine) :=
  form.foldl (fun items kv =>
    match splitOnPred (fun c => c = '-') kv.1.data with
    | [t, i, f] =>
      if kv.2 ≠ "" then
        aUpd items (⟨t⟩, ⟨i⟩) (fun d => aSet d ⟨f⟩ kv.2) [(⟨f⟩, kv.2)]
      else items
    | _ => items) []

/-- Second pass of `parse_form_data`: keep the line dicts that carry an
`id`, grouped per item type in first-appearance order. -/
def parseFormData (form : Form) : List (String × List FormLine) :=
  (pfdItems form).foldl (fun data kd =>
    if (aGet kd.2 "id").isSome then
      aUpd data kd.1.1 (fun l => l ++ [kd.2]) [kd.2]
    else data) []

/-- The master item maps `process_work_item_form` draws from
`data_manager.get_master_item_map`, one per item type. -/
abbrev MasterMaps := String → List (PyVal × PyDict)

/-- The `try` block of the line loop of `process_work_item_form`
(lines 190-201 of `routes.py`). Returns the amount added to
`group_subtotal` and the line dict appended, if any: the subtotal is
accumulated *before* the appended dict is built, and building that dict
reads `master_item['Type']` and `master_item['Unit']`, which can raise
`KeyError` after the accumulation. The master map lookup uses the key
`int(item_data.get('id'))` — an `int`, while the map built by
`get_master_item_map` is keyed by the strings `item['id']`, and in Python
an `int` never equals a `str`. -/
def processLine (masterMap : List (PyVal × PyDict)) (line : FormLine) : ℚ × Option PyDict :=
  match aGet line "id" with
  | none => (0, none)
  | some ids =>
    match pyIntOfString ids with
    | none => (0, none)
    | some n =>
      match aGet masterMap (PyVal.num (mkRat n 1)) with
      | none => (0, none)
      | some masterItem =>
        match (match aGet line "quantity" with
               | none => some 0
               | some qs => pyFloatOfString qs) with
        | none => (0, none)
        | some quantity =>
          match pyFloat (aGetD masterItem "Price" (.str "")) with
          | none => (0, none)
          | some unitPrice =>
            let subtotal := qMul quantity unitPrice
            match aGet masterItem "Type", aGet masterItem "Unit" with
            | some tv, some uv =>
              (subtotal,
               some [("id", .str ids), ("name", tv), ("quantity", .num quantity),
                     ("unit_price", .num unitPrice), ("subtotal", .num subtotal),
                     ("unit", uv)])
            | _, _ => (subtotal, none)

/-- The category loop body: fold the lines, collecting appended dicts and
the group subtotal. -/
def processLines (masterMap : List (PyVal × PyDict)) (lines : List FormLine) :
    List PyDict × ℚ :=
  lines.foldl (fun acc l =>
    let r := processLine masterMap l
    (acc.1 ++ r.2.toList, qAdd acc.2 r.1)) ([], 0)

/-- The basis-quantity coercion of `process_work_item_form`
(lines 174-177): `float(form.get('basis_quantity', 1.0))`, any
`ValueError`/`TypeError` and any value ≤ 0 falling back to `1.0`. -/
def coerceBasis (o : Option String) : ℚ :=
  match o with
  | none => 1
  | some s =>
    match pyFloatOfString s with
    | none => 1
    | some q => if q ≤ 0 then 1 else q

/-- The processed work item record. -/
structure WorkItem where
  id : String
  name : String
  unit_of_measure : String
  basis_quantity : ℚ
  labor : List PyDict
  material : List PyDict
  equipment : List PyDict
  labor_total : ℚ
  material_total : ℚ
  equipment_total : ℚ
  total_cost_per_unit : ℚ
  contractor_overhead_15_percent : ℚ
  sum_total : ℚ
  price_per_unit : ℚ
  deriving DecidableEq, Repr

/-- `process_work_item_form` (lines 171-208 of `routes.py`). `master`
stands for `data_manager.get_master_item_map` per item type; `freshId`
for `str(uuid.uuid4())`. `None` is returned exactly when the submitted
name is falsy (missing key or empty string). The literals `0.15` and
`1.15` of the source are the rationals `3/20` and `23/20`. -/
def processWorkItemForm (master : MasterMaps) (form : Form) (freshId : String)
    (workItemId : Option String) : Option WorkItem :=
  match formGet form "name" with
  | none => none
  | some nm =>
    if nm = "" then none
    else
      let basis := coerceBasis (formGet form "basis_quantity")
      let parsed := parseFormData form
      let lab := processLines (master "labor") (aGetD parsed "labor" [])
      let mat := processLines (master "material") (aGetD parsed "material" [])
      let equ := processLines (master "equipment") (aGetD parsed "equipment" [])
      let totalCost := qAdd (qAdd (qAdd 0 lab.2) mat.2) equ.2
      some {
        id := workItemId.getD freshId
        name := nm
        unit_of_measure := (formGet form "unit_of_measure").getD "Per Item"
        basis_quantity := basis
        labor := lab.1, material := mat.1, equipment := equ.1
        labor_total := lab.2, material_total := mat.2, equipment_total := equ.2
        total_cost_per_unit := totalCost
        contractor_overhead_15_percent := qMul totalCost (mkRat 3 20)
        sum_total := qMul totalCost (mkRat 23 20)
        price_per_unit := qDiv (qMul totalCost (mkRat 23 20)) basis }

/-- View of a processed work item as a stored record (all fields
present), as `json.dump`/`json.load` round it through `data.json`. -/
def WorkItem.toStored (w : WorkItem) : StoredWorkItem :=
  { id := some w.id
    name := some (.str w.name)
    unit_of_measure := some (.str w.unit_of_measure)
    basis_quantity := some w.basis_quantity
    price_per_unit := some w.price_per_unit
    sum_total := some w.sum_total
    labor := w.labor, material := w.material, equipment := w.equipment
    labor_total := some w.labor_total
    material_total := some w.material_total
    equipment_total := some w.equipment_total
    total_cost_per_unit := some w.total_cost_per_unit
    contractor_overhead_15_percent := some w.contractor_overhead_15_percent }

/-- The `save_work_item` handler's effect on the stored document: when
the processor returns `None` the handler only flashes and redirects, so
the document is unchanged; otherwise `add_work_item_to_category` runs
(which is also a no-op when no category matches). -/
def saveWorkItemRoute (master : MasterMaps) (categoryId : String) (form : Form)
    (freshId : String) (doc : Doc) : Doc :=
  match processWorkItemForm master form freshId none with
  | none => doc
  | some item => (addWorkItemToCategory categoryId item.toStored doc).getD doc

/-- The `update_work_item` handler's effect on the stored document. -/
def updateWorkItemRoute (master : MasterMaps) (categoryId workItemId : String)
    (form : Form) (doc : Doc) : Doc :=
  match processWorkItemForm master form "" (some workItemId) with
  | none => doc
  | some item => (updateWorkItem categoryId item.toStored doc).getD doc

/-! ## `app/routes.py`: `category_detail` migration and project views -/

/-- The data-integrity migration `category_detail` applies to each work
item before rendering (lines 130-140): inject `basis_quantity = 1.0`
when the key is *missing*; inject `price_per_unit` when missing, set to
`sum_total / basis_quantity` when the basis is positive and to
`sum_total` otherwise. -/
def migrateWorkItem (it : StoredWorkItem) : StoredWorkItem :=
  let it :=
    if it.basis_quantity.isNone then { it with basis_quantity := some 1 } else it
  if it.price_per_unit.isNone then
    let total := it.sum_total.getD 0
    let basis := it.basis_quantity.getD 1
    { it with price_per_unit := some (if 0 < basis then qDiv total basis else total) }
  else it

/-- The work items `category_detail` presents for a category. -/
def categoryDetailItems (c : Category) : List StoredWorkItem :=
  c.work_items.map migrateWorkItem

/-- The POST branch of `project_detail` (lines 274-281): for each line,
when the form carries `quantity-<instance_id>`, coerce it with `float`,
falling back to `0` on `ValueError`/`TypeError`. Never fails. -/
def updateProjectQuantities (form : Form) (p : Project) : Project :=
  { p with
    items := p.items.map (fun it =>
      match formGet form ("quantity-" ++ it.instance_id) with
      | none => it
      | some s => { it with quantity := (pyFloatOfString s).getD 0 }) }

/-- Outcome of `add_item_to_project` (lines 303-323) for an existing
project: the work item may be missing (flash + redirect, no write), the
unguarded `float(quantity)` may raise an uncaught `ValueError` (`.err`),
or the new line is appended and the project saved. -/
inductive AddItemResult where
  | workItemNotFound : AddItemResult
  | err : AddItemResult
  | ok : Project → AddItemResult
  deriving DecidableEq, Repr

/-- `add_item_to_project`: `quantity = request.form.get('quantity', '1.0')`
then `float(quantity)` with no exception handler. -/
def addItemToProject (doc : Doc) (p : Project) (form : Form) (fresh : String) :
    AddItemResult :=
  let workItemId := formGet form "work_item_id"
  let quantity := (formGet form "quantity").getD "1.0"
  match findWorkItemById doc workItemId with
  | none => .workItemNotFound
  | some wi =>
    match pyFloatOfString quantity with
    | none => .err
    | some q =>
      .ok { p with items := p.items ++
        [{ instance_id := fresh
           work_item_id := workItemId
           name := wi.name
           unit_of_measure := wi.unit_of_measure
           unit_price := wi.sum_total.getD 0
           quantity := q }] }

/-! ## Typed master items (for the round-trip claim) -/

/-- A well-formed master inventory item, as the in-memory dicts the data
manager produces and consumes. -/
structure MasterItem where
  id : String
  name : String
  unit : String
  price : ℚ
  deriving DecidableEq, Repr

/-- The in-memory dict of a master item. -/
def MasterItem.toDict (m : MasterItem) : PyDict :=
  [("id", .str m.id), ("name", .str m.name), ("Unit", .str m.unit), ("Price", .num m.price)]

/-- The CSV row `_save_master_csv` writes for a master item under the
category-specific type column `tk`. -/
def savedRowOf (tk : String) (m : MasterItem) : PyDict :=
  [("SerialNo", .str m.id), (tk, .str m.name), ("Unit", .str m.unit), ("Price", .num m.price)]

/-- The dict `_load_master_csv` produces from such a saved row. -/
def loadedRowOf (m : MasterItem) : PyDict :=
  [("SerialNo", .str m.id), ("Unit", .str m.unit), ("Price", .num m.price),
   ("id", .str m.id), ("name", .str m.name)]

/-! ## Spec-side definitions (refinement comparisons) -/

/-- The id-generation rule in the words of the specification: parse every
existing item's id as an integer where possible, take the maximum *of
those* (`0` when none parse), add 1, stringify. Compare with
`newMasterId`, whose fold starts at `0` and therefore never goes below
zero. -/
def claimedNewMasterId (items : List PyDict) : String :=
  match items.filterMap (fun it => pyInt (aGetD it "id" (.num 0))) with
  | [] => toString ((0 : Int) + 1)
  | x :: xs => toString (xs.foldl max x + 1)

/-- The integer ids that parse, in order. -/
def parsedIds (items : List PyDict) : List Int :=
  items.filterMap (fun it => pyInt (aGetD it "id" (.num 0)))

/-- Maximum of a list of integers together with `0`. -/
def maxParsedId (l : List Int) : Int :=
  l.foldl max 0

/-! ## Concrete fixtures for witnesses and counterexamples -/

/-- A fixed uuid oracle. -/
def f0 : ℕ → String := fun _ => "uuid-0"

/-- Empty master maps. -/
def mm0 : MasterMaps := fun _ => []

/-- A one-row labor catalog file, as `csv.DictReader` yields it. -/
def laborFileW : CsvFile :=
  [[("SerialNo", .str "1"), ("LaborType", .str "Mason"),
    ("Unit", .str "PerDay"), ("Price", .str "500")]]

/-- The row `_load_master_csv` produces from `laborFileW`. -/
def loadedLaborRowW : PyDict :=
  [("SerialNo", .str "1"), ("Unit", .str "PerDay"), ("Price", .num (mkRat 500 1)),
   ("id", .str "1"), ("name", .str "Mason")]

/-- The id map `get_master_item_map` builds over `laborFileW`. -/
def masterMapW : List (PyVal × PyDict) :=
  [(.str "1", loadedLaborRowW)]

/-- Master maps with the one-row labor catalog. -/
def mmW : MasterMaps := fun t => if t = "labor" then masterMapW else []

/-- A form selecting that labor line: id present in the lookup, quantity
numeric. -/
def formC1 : Form :=
  [("name", "Wall"), ("labor-0-id", "1"), ("labor-0-quantity", "2")]

/-- A minimal valid form. -/
def formC2 : Form := [("name", "Wall")]

/-- A form with an empty name. -/
def formEmptyName : Form := [("name", ""), ("basis_quantity", "2")]

/-- A form with a non-numeric basis quantity. -/
def formBadBasis : Form := [("name", "Wall"), ("basis_quantity", "abc")]

/-- A stored work item with `basis_quantity` present and zero. -/
def itemBasisZero : StoredWorkItem :=
  { basis_quantity := some 0, sum_total := some (mkRat 100 1) }

/-- A stored work item snapshot. -/
def swiW1 : StoredWorkItem :=
  { id := some "w1", name := some (.str "Wall"),
    unit_of_measure := some (.str "Cubic Meter"),
    basis_quantity := some 1, price_per_unit := some (mkRat 23 2),
    sum_total := some (mkRat 23 2) }

/-- A document with one category holding that work item. -/
def docW : Doc :=
  { categories := [{ id := some "c1", name := "General", work_items := [swiW1] }],
    projects := [] }

/-- An empty project. -/
def projC5 : Project := { id := "p1", name := "House", items := [] }

/-- A form adding work item `w1` with a malformed quantity. -/
def formC5bad : Form := [("work_item_id", "w1"), ("quantity", "abc")]

/-- A project line with instance id `i1`. -/
def lineC5 : ProjectLine :=
  { instance_id := "i1", work_item_id := some "w1", name := some (.str "Wall"),
    unit_of_measure := some (.str "Cubic Meter"), unit_price := mkRat 23 2,
    quantity := mkRat 1 1 }

/-- A project holding that line. -/
def projC5b : Project := { id := "p1", name := "House", items := [lineC5] }

/-- A form updating line `i1` with a malformed quantity. -/
def formC5upd : Form := [("quantity-i1", "xyz")]

/-- A one-item typed catalog. -/
def mItemW : MasterItem := { id := "1", name := "Mason", unit := "PerDay", price := mkRat 500 1 }

/-- A catalog whose only id parses to a negative integer. -/
def itemsNegId : List PyDict := [[("id", .str "-5")]]

/-- File-system state with the labor catalog and the document. -/
def fsW : FS := { csv := [("labor", laborFileW)], doc := docW }

/-- The state `delete_master_item` produces from `fsW` when deleting
id `1`: the labor file is rewritten empty, the document untouched. -/
def fsW2 : FS := { csv := [("labor", [])], doc := docW }

/-! ## Association list lemmas -/

theorem aGet_aSet_ne {κ α : Type} [DecidableEq κ] (d : List (κ × α)) {k key : κ} (v : α)
    (h : k ≠ key) : aGet (aSet d k v) key = aGet d key := by
  induction d with
  | nil => simp [aSet, aGet, h]
  | cons p rest ih =>
    obtain ⟨k0, w⟩ := p
    by_cases hk : k0 = k
    · subst hk
      simp [aSet, aGet, h]
    · simp only [aSet, if_neg hk]
      by_cases hq : k0 = key
      · subst hq
        simp [aGet]
      · simp [aGet, hq, ih]

/-! ## The `mkRat` operations agree with the field operations on `ℚ` -/

theorem qAdd_eq (a b : ℚ) : qAdd a b = a + b := by
  rw [qAdd, Rat.mkRat_eq_divInt]
  push_cast
  conv_rhs => rw [← Rat.num_divInt_den a, ← Rat.num_divInt_den b]
  rw [Rat.divInt_add_divInt _ _
    (Int.natCast_ne_zero.mpr a.den_nz) (Int.natCast_ne_zero.mpr b.den_nz)]

theorem qMul_eq (a b : ℚ) : qMul a b = a * b := by
  rw [qMul, Rat.mkRat_eq_divInt]
  push_cast
  conv_rhs => rw [← Rat.num_divInt_den a, ← Rat.num_divInt_den b]
  rw [Rat.divInt_mul_divInt']

theorem qInv_eq (b : ℚ) : qInv b = b⁻¹ := by
  rw [qInv, Rat.mkRat_eq_divInt]
  conv_rhs => rw [← Rat.num_divInt_den b, Rat.inv_divInt']
  cases hn : b.num with
  | ofNat n =>
    cases n with
    | zero =>
      simp [Int.sign, Rat.mkRat_eq_divInt]
    | succ k =>
      simp [Int.sign, Int.natAbs]
  | negSucc n =>
    simp only [Int.sign, Int.natAbs]
    have h2 : Int.negSucc n = -((n.succ : ℕ) : Int) := by
      rw [Int.negSucc_eq]
      push_cast
      ring
    rw [h2, Rat.divInt_neg, neg_one_mul]

theorem qDiv_eq (a b : ℚ) : qDiv a b = a / b := by
  rw [qDiv, qMul_eq, qInv_eq, div_eq_mul_inv]

theorem mkRat_3_20_eq : (mkRat 3 20 : ℚ) = 0.15 := by
  rw [Rat.mkRat_eq_div]
  norm_num

theorem mkRat_23_20_eq : (mkRat 23 20 : ℚ) = 1.15 := by
  rw [Rat.mkRat_eq_div]
  norm_num

/-! ## Properties of the work item form processor -/

theorem coerceBasis_pos (o : Option String) : 0 < coerceBasis o := by
  rcases o with _ | s
  · norm_num [coerceBasis]
  · simp only [coerceBasis]
    cases hf : pyFloatOfString s with
    | none => norm_num
    | some q =>
      dsimp only
      rcases le_or_lt q 0 with hq | hq
      · rw [if_pos hq]
        norm_num
      · rw [if_neg (not_le.mpr hq)]
        exact hq

theorem processWorkItemForm_none_iff (master : MasterMaps) (form : Form) (freshId : String)
    (workItemId : Option String) :
    processWorkItemForm master form freshId workItemId = none ↔
      (formGet form "name" = none ∨ formGet form "name" = some "") := by
  unfold processWorkItemForm
  cases hn : formGet form "name" with
  | none => simp
  | some nm =>
    by_cases he : nm = ""
    · subst he
      simp
    · simp [he]

/-- C2: every record `process_work_item_form` produces satisfies
`total_cost_per_unit = labor_total + material_total + equipment_total`,
`contractor_overhead_15_percent = total_cost_per_unit * 0.15`,
`sum_total = total_cost_per_unit * 1.15` and
`price_per_unit = sum_total / basis_quantity`, with
`basis_quantity > 0` by construction — exactly, including when the
totals are zero. -/
theorem C2_rollup_identities (master : MasterMaps) (form : Form) (freshId : String)
    (workItemId : Option String) (item : WorkItem)
    (h : processWorkItemForm master form freshId workItemId = some item) :
    item.total_cost_per_unit = item.labor_total + item.material_total + item.equipment_total
    ∧ item.contractor_overhead_15_percent = item.total_cost_per_unit * 0.15
    ∧ item.sum_total = item.total_cost_per_unit * 1.15
    ∧ item.price_per_unit = item.sum_total / item.basis_quantity
    ∧ 0 < item.basis_quantity := by
  unfold processWorkItemForm at h
  split at h
  · exact absurd h (by simp)
  · split at h
    · exact absurd h (by simp)
    · replace h := Option.some.inj h
      subst h
      refine ⟨?_, ?_, ?_, ?_, ?_⟩
      · show qAdd (qAdd (qAdd 0 _) _) _ = _
        rw [qAdd_eq, qAdd_eq, qAdd_eq, zero_add]
      · show qMul _ (mkRat 3 20) = _ * (0.15 : ℚ)
        rw [qMul_eq, mkRat_3_20_eq]
      · show qMul _ (mkRat 23 20) = _ * (1.15 : ℚ)
        rw [qMul_eq, mkRat_23_20_eq]
      · show qDiv _ _ = _ / _
        rw [qDiv_eq]
      · exact coerceBasis_pos _

/-- Witness for C2: the identities evaluated on a concrete form. -/
theorem C2_rollup_identities_witness :
    (processWorkItemForm mm0 formC2 "u" none).elim False
      (fun it =>
        it.total_cost_per_unit = it.labor_total + it.material_total + it.equipment_total
        ∧ it.contractor_overhead_15_percent = it.total_cost_per_unit * 0.15
        ∧ it.sum_total = it.total_cost_per_unit * 1.15
        ∧ it.price_per_unit = it.sum_total / it.basis_quantity
        ∧ 0 < it.basis_quantity) := by
  cases he : processWorkItemForm mm0 formC2 "u" none with
  | none => exact absurd he (by decide)
  | some it => simpa using C2_rollup_identities mm0 formC2 "u" none it he

/-- C3: the processor returns no record exactly when the submitted name
is empty (missing key or empty string); in that case the save/update
handlers leave the stored document unchanged; when a record is produced,
a `basis_quantity` that fails `float()` or is ≤ 0 is silently replaced
by `1.0`. -/
theorem C3_name_gate (master : MasterMaps) (form : Form) (freshId : String)
    (workItemId : Option String) (categoryId workItemId2 : String) (doc : Doc) :
    (processWorkItemForm master form freshId workItemId = none ↔
      (formGet form "name" = none ∨ formGet form "name" = some ""))
    ∧ (∀ item s, processWorkItemForm master form freshId workItemId = some item →
        formGet form "basis_quantity" = some s →
        (pyFloatOfString s = none ∨ ∃ q, pyFloatOfString s = some q ∧ q ≤ 0) →
        item.basis_quantity = 1)
    ∧ ((formGet form "name" = none ∨ formGet form "name" = some "") →
        saveWorkItemRoute master categoryId form freshId doc = doc
        ∧ updateWorkItemRoute master categoryId workItemId2 form doc = doc) := by
  refine ⟨processWorkItemForm_none_iff master form freshId workItemId, ?_, ?_⟩
  · intro item s h hb hcase
    unfold processWorkItemForm at h
    split at h
    · exact absurd h (by simp)
    · split at h
      · exact absurd h (by simp)
      · replace h := Option.some.inj h
        subst h
        show coerceBasis (formGet form "basis_quantity") = 1
        rw [hb]
        simp only [coerceBasis]
        rcases hcase with hnone | ⟨q, hq, hle⟩
        · rw [hnone]
        · rw [hq]
          exact if_pos hle
  · intro hname
    constructor
    · unfold saveWorkItemRoute
      rw [(processWorkItemForm_none_iff master form freshId none).mpr hname]
    · unfold updateWorkItemRoute
      rw [(processWorkItemForm_none_iff master form "" (some workItemId2)).mpr hname]

/-- Witness for C3: empty name yields no record and an unchanged
document; a non-numeric basis quantity yields a record with basis 1. -/
theorem C3_name_gate_witness :
    processWorkItemForm mm0 formEmptyName "u" none = none
    ∧ saveWorkItemRoute mm0 "c1" formEmptyName "u" docW = docW
    ∧ (processWorkItemForm mm0 formBadBasis "u" none).elim False
        (fun it => it.basis_quantity = 1) := by
  have h1 := C3_name_gate mm0 formEmptyName "u" none "c1" "w1" docW
  refine ⟨h1.1.mpr (Or.inr (by decide)), (h1.2.2 (Or.inr (by decide))).1, ?_⟩
  cases he : processWorkItemForm mm0 formBadBasis "u" none with
  | none =>
    rcases (C3_name_gate mm0 formBadBasis "u" none "c1" "w1" docW).1.mp he with h | h
    · exact absurd h (by decide)
    · exact absurd h (by decide)
  | some it =>
    have hb := (C3_name_gate mm0 formBadBasis "u" none "c1" "w1" docW).2.1 it "abc"
      he (by decide) (Or.inl (by decide))
    simpa using hb

/-! ## C1: the line lookup of the cost rollup -/

/-- C1 (code bug): with a labor catalog whose item id `"1"` *is* present
in the lookup map built by `get_master_item_map`, and a selected line
with that id and the numeric quantity `"2"`, `process_work_item_form`
still skips the line: the lookup `master_map[int(item_data.get('id'))]`
uses the `int` key `1` while the map is keyed by the string `"1"`, so it
raises `KeyError` and the `except` clause drops the line (were the
lookup to succeed, `master_item['Type']` would raise as well, since
`_load_master_csv` renames that key to `'name'`). The record's labor
lines stay empty and every total is `0`, contradicting the documented
skip-only-when-absent-or-malformed policy. -/
theorem C1_line_skip_code_bug :
    getMasterItemMap "labor" (some laborFileW) f0 = .ok masterMapW
    ∧ aGet masterMapW (PyVal.str "1") = some loadedLaborRowW
    ∧ pyIntOfString "1" = some 1
    ∧ aGet masterMapW (PyVal.num (mkRat 1 1)) = none
    ∧ pyFloatOfString "2" = some (mkRat 2 1)
    ∧ pyFloat (aGetD loadedLaborRowW "Price" (.str "")) = some (mkRat 500 1)
    ∧ aGet loadedLaborRowW "Type" = none
    ∧ (processWorkItemForm mmW formC1 "u1" none).map
        (fun w => (w.labor, w.labor_total, w.total_cost_per_unit, w.sum_total))
      = some ([], 0, 0, 0) := by
  refine ⟨by decide, by decide, by decide, by decide, by decide, by decide, by decide,
    by decide⟩

/-! ## C4: the category_detail migration -/

/-- C4 counterexample: a stored work item whose `basis_quantity` is
present and `0` is presented by `category_detail` with basis `0`, not
`1.0` — the migration only fills in a *missing* `basis_quantity`. The
missing `price_per_unit` is injected as `sum_total` (the zero-basis
fallback). -/
theorem C4_counterexample :
    (categoryDetailItems
        { id := some "c1", name := "General", work_items := [itemBasisZero] }).map
      StoredWorkItem.basis_quantity = [some 0]
    ∧ some (0 : ℚ) ≠ some (1 : ℚ)
    ∧ (migrateWorkItem itemBasisZero).price_per_unit = some (mkRat 100 1) := by
  refine ⟨by decide, by decide, by decide⟩

/-- C4 amended: on every read, a work item *missing* `basis_quantity`
is presented with basis `1.0`, while a present value — even one ≤ 0 — is
kept; a missing `price_per_unit` is injected as
`sum_total / basis_quantity` when the (possibly defaulted) basis is
positive and as `sum_total` otherwise; `sum_total` is untouched. -/
theorem C4_migration_amended (it : StoredWorkItem) :
    (migrateWorkItem it).basis_quantity = some (it.basis_quantity.getD 1)
    ∧ (migrateWorkItem it).price_per_unit =
        some (match it.price_per_unit with
              | some p => p
              | none =>
                if 0 < it.basis_quantity.getD 1 then
                  it.sum_total.getD 0 / it.basis_quantity.getD 1
                else it.sum_total.getD 0)
    ∧ (migrateWorkItem it).sum_total = it.sum_total := by
  cases hbq : it.basis_quantity <;> cases hppu : it.price_per_unit <;>
    simp [migrateWorkItem, hbq, hppu, qDiv_eq]

/-! ## C5: quantity coercion for project lines -/

/-- C5 counterexample: in `add_item_to_project` the quantity is coerced
with a bare `float(quantity)` — no `try`/`except` — so a malformed
quantity makes the operation fail with an uncaught `ValueError` instead
of applying a default. -/
theorem C5_counterexample :
    addItemToProject docW projC5 formC5bad "i1" = .err := by decide

/-- C5 amended: in the `project_detail` update, a malformed line
quantity is coerced to `0` and the operation never fails; in
`add_item_to_project`, a *missing* quantity defaults to `"1.0"` (line
quantity `1`), but a present malformed quantity aborts the operation
with an uncaught `ValueError`. -/
theorem C5_quantity_leniency_amended (doc : Doc) (p : Project) (form : Form) (fresh : String) :
    (∀ (i : ℕ) (it : ProjectLine) (s : String), p.items[i]? = some it →
        formGet form ("quantity-" ++ it.instance_id) = some s →
        pyFloatOfString s = none →
        ((updateProjectQuantities form p).items[i]?).map ProjectLine.quantity = some 0)
    ∧ (∀ (s : String) (wi : StoredWorkItem),
        formGet form "quantity" = some s → pyFloatOfString s = none →
        findWorkItemById doc (formGet form "work_item_id") = some wi →
        addItemToProject doc p form fresh = .err)
    ∧ (∀ wi : StoredWorkItem, formGet form "quantity" = none →
        findWorkItemById doc (formGet form "work_item_id") = some wi →
        ∃ p2, addItemToProject doc p form fresh = .ok p2
          ∧ (p2.items.getLast?).map ProjectLine.quantity = some 1) := by
  refine ⟨?_, ?_, ?_⟩
  · intro i it s hit hq hparse
    unfold updateProjectQuantities
    simp [List.getElem?_map, hit, hq, hparse]
  · intro s wi hs hparse hfind
    simp [addItemToProject, hs, hparse, hfind]
  · intro wi hq hfind
    have h10 : pyFloatOfString "1.0" = some 1 := by decide
    refine ⟨{ p with items := p.items ++
        [{ instance_id := fresh, work_item_id := formGet form "work_item_id",
           name := wi.name, unit_of_measure := wi.unit_of_measure,
           unit_price := wi.sum_total.getD 0, quantity := 1 }] }, ?_, ?_⟩
    · simp [addItemToProject, hq, hfind, h10]
    · simp

/-- Witness for the amended C5 at concrete inputs. -/
theorem C5_quantity_leniency_amended_witness :
    addItemToProject docW projC5 formC5bad "i1" = .err
    ∧ ((updateProjectQuantities formC5upd projC5b).items[0]?).map ProjectLine.quantity
      = some 0 := by
  constructor
  · exact (C5_quantity_leniency_amended docW projC5 formC5bad "i1").2.1 "abc" swiW1
      (by decide) (by decide) (by decide)
  · exact (C5_quantity_leniency_amended docW projC5b formC5upd "i1").1 0 lineC5 "xyz"
      (by decide) (by decide) (by decide)

/-! ## C7: master item id generation -/

/-- C7 counterexample: for a catalog whose only id parses to `-5`, the
claimed rule (maximum of the parsed ids, `0` only when none parse, plus
one) yields `"-4"`, but `add_master_item`'s scan starts its fold at `0`
and assigns `"1"`. -/
theorem C7_counterexample :
    newMasterId itemsNegId = "1"
    ∧ claimedNewMasterId itemsNegId = "-4"
    ∧ newMasterId itemsNegId ≠ claimedNewMasterId itemsNegId := by
  refine ⟨by decide, by decide, by decide⟩

/-- C7 amended: the new id is the maximum of the parsable integer ids
*together with `0`* (ids that do not parse are ignored), plus one,
stringified. -/
theorem C7_new_id_amended (items : List PyDict) :
    newMasterId items = toString (maxParsedId (parsedIds items) + 1) := by
  unfold newMasterId maxParsedId parsedIds
  have h : ∀ (l : List PyDict) (m : Int),
      l.foldl (fun m it =>
        match pyInt (aGetD it "id" (.num 0)) with
        | some n => max m n
        | none => m) m
      = (l.filterMap (fun it => pyInt (aGetD it "id" (.num 0)))).foldl max m := by
    intro l
    induction l with
    | nil => intro m; rfl
    | cons a rest ih =>
      intro m
      cases hf : pyInt (aGetD a "id" (.num 0)) with
      | none => simp [List.filterMap_cons, hf, ih]
      | some n => simp [List.filterMap_cons, hf, ih]
  rw [h]

/-! ## C8: the unit label formatter -/

/-- C8: `format_unit` returns non-string input unchanged; a string that
case-insensitively starts with `Per` is stripped of its first three
characters, the remainder lowercased exactly when it satisfies Python's
`isupper()` (all cased characters uppercase, at least one cased
character) or has at most two characters, then prefixed with `1 `; any
other string is returned with the `1 ` prefix and its case unchanged. In
particular `PerKg ↦ 1 kg`, `PerDay ↦ 1 Day`, `CubicM ↦ 1 CubicM`, and
the number `42` passes through. -/
theorem C8_format_unit :
    (∀ q : ℚ, formatUnit (.num q) = .num q)
    ∧ (∀ s : String, ['p', 'e', 'r'].isPrefixOf (pyLowerStr s).data = true →
        formatUnit (.str s) =
          .str ⟨'1' :: ' ' ::
            (if pyIsUpper ⟨s.data.drop 3⟩ || (s.data.drop 3).length ≤ 2
             then pyLowerStr ⟨s.data.drop 3⟩
             else (⟨s.data.drop 3⟩ : String)).data⟩)
    ∧ (∀ s : String, ['p', 'e', 'r'].isPrefixOf (pyLowerStr s).data = false →
        formatUnit (.str s) = .str ⟨'1' :: ' ' :: s.data⟩)
    ∧ formatUnit (.str "PerKg") = .str "1 kg"
    ∧ formatUnit (.str "PerDay") = .str "1 Day"
    ∧ formatUnit (.str "CubicM") = .str "1 CubicM"
    ∧ formatUnit (.num 42) = .num 42 := by
  refine ⟨fun q => rfl, ?_, ?_, by decide, by decide, by decide, by decide⟩
  · intro s hs
    simp [formatUnit, hs]
  · intro s hs
    simp [formatUnit, hs]

/-- Witness for C8: both branches of the rule applied at concrete
strings. -/
theorem C8_format_unit_witness :
    formatUnit (.str "PerKg") = .str "1 kg"
    ∧ formatUnit (.str "XYZ") = .str "1 XYZ" := by
  constructor
  · exact (C8_format_unit.2.1 "PerKg" (by decide)).trans (by decide)
  · exact (C8_format_unit.2.2.1 "XYZ" (by decide)).trans (by decide)

/-! ## C9: deleting a master item never touches the JSON document -/

/-- C9: `delete_master_item` only rewrites the catalog CSV of the given
item type: when it succeeds, the stored JSON document — and with it
every work item's snapshot values — is unchanged, and so is every other
CSV file. -/
theorem C9_delete_master_frame (itemType itemId : String) (fresh : ℕ → String) (fs fs2 : FS)
    (h : deleteMasterItem itemType itemId fresh fs = .ok fs2) :
    fs2.doc = fs.doc ∧ ∀ s, s ≠ itemType → aGet fs2.csv s = aGet fs.csv s := by
  unfold deleteMasterItem at h
  cases hl : loadMasterCsv itemType (aGet fs.csv itemType) fresh with
  | error e =>
    rw [hl] at h
    exact absurd h (by simp)
  | ok allItems =>
    rw [hl] at h
    replace h := Except.ok.inj h
    subst h
    refine ⟨rfl, ?_⟩
    intro s hsne
    exact aGet_aSet_ne fs.csv _ (Ne.symm hsne)

/-- Witness for C9: deleting labor item `1` from a concrete state leaves
the document unchanged. -/
theorem C9_delete_master_frame_witness : fsW2.doc = fsW.doc :=
  (C9_delete_master_frame "labor" "1" f0 fsW fsW2 (by decide)).1

/-! ## C10: category operations with no matching category -/

theorem addToFirstCategory_none (categoryId : String) (wi : StoredWorkItem) :
    ∀ cs : List Category, (∀ c ∈ cs, c.id ≠ some categoryId) →
      addToFirstCategory categoryId wi cs = none := by
  intro cs
  induction cs with
  | nil => intro _; rfl
  | cons c rest ih =>
    intro h
    have hc := h c (List.mem_cons_self c rest)
    have hrest := ih (fun c2 hc2 => h c2 (List.mem_cons_of_mem c hc2))
    simp [addToFirstCategory, hc, hrest]

theorem updFirstCategory_none (categoryId : String) (upd : StoredWorkItem) :
    ∀ cs : List Category, (∀ c ∈ cs, c.id ≠ some categoryId) →
      updFirstCategory categoryId upd cs = none := by
  intro cs
  induction cs with
  | nil => intro _; rfl
  | cons c rest ih =>
    intro h
    have hc := h c (List.mem_cons_self c rest)
    have hrest := ih (fun c2 hc2 => h c2 (List.mem_cons_of_mem c hc2))
    simp [updFirstCategory, hc, hrest]

theorem delFirstCategory_none (categoryId workItemId : String) :
    ∀ cs : List Category, (∀ c ∈ cs, c.id ≠ some categoryId) →
      delFirstCategory categoryId workItemId cs = none := by
  intro cs
  induction cs with
  | nil => intro _; rfl
  | cons c rest ih =>
    intro h
    have hc := h c (List.mem_cons_self c rest)
    have hrest := ih (fun c2 hc2 => h c2 (List.mem_cons_of_mem c hc2))
    simp [delFirstCategory, hc, hrest]

/-- C10: when no category of the stored document has the given id,
`add_work_item_to_category`, `update_work_item` and `delete_work_item`
all return without calling `_save_json_data` (result `none`): no write
is performed and the stored document is left entirely unchanged. -/
theorem C10_missing_category_no_write (categoryId workItemId : String)
    (wi upd : StoredWorkItem) (doc : Doc)
    (h : ∀ c ∈ doc.categories, c.id ≠ some categoryId) :
    addWorkItemToCategory categoryId wi doc = none
    ∧ updateWorkItem categoryId upd doc = none
    ∧ deleteWorkItem categoryId workItemId doc = none := by
  refine ⟨?_, ?_, ?_⟩
  · unfold addWorkItemToCategory
    rw [addToFirstCategory_none categoryId wi doc.categories h]
    rfl
  · unfold updateWorkItem
    rw [updFirstCategory_none categoryId upd doc.categories h]
    rfl
  · unfold deleteWorkItem
    rw [delFirstCategory_none categoryId workItemId doc.categories h]
    rfl

/-- Witness for C10 at a concrete document and unmatched category id. -/
theorem C10_missing_category_no_write_witness :
    addWorkItemToCategory "zzz" swiW1 docW = none
    ∧ updateWorkItem "zzz" swiW1 docW = none
    ∧ deleteWorkItem "zzz" "w1" docW = none :=
  C10_missing_category_no_write "zzz" "w1" swiW1 swiW1 docW (by decide)

/-! ## C6: the CSV round trip -/

theorem saveMasterCsv_map_toDict (t : String) (items : List MasterItem) (hne : items ≠ []) :
    saveMasterCsv t (items.map MasterItem.toDict)
      = items.map (savedRowOf (pyCapitalize t ++ "Type")) := by
  unfold saveMasterCsv
  rw [if_neg (by simpa using hne), List.map_map]
  rfl

theorem loadRow_savedRow (t : String) (fresh : String) (m : MasterItem)
    (h1 : pyCapitalize t ++ "Type" ≠ "SerialNo")
    (h2 : pyCapitalize t ++ "Type" ≠ "Unit")
    (h3 : pyCapitalize t ++ "Type" ≠ "Price")
    (h4 : pyCapitalize t ++ "Type" ≠ "id")
    (h5 : pyCapitalize t ++ "Type" ≠ "name") :
    loadRow t fresh (savedRowOf (pyCapitalize t ++ "Type") m) = .ok (loadedRowOf m) := by
  unfold loadRow savedRowOf loadedRowOf
  simp [aGet, aSet, aErase, aGetD, pyFloat, h1, h2, h3, h4, h5,
    Ne.symm h1, Ne.symm h2, Ne.symm h3, Ne.symm h4, Ne.symm h5]

theorem loadRows_savedRows (t : String) (fresh : ℕ → String)
    (h1 : pyCapitalize t ++ "Type" ≠ "SerialNo")
    (h2 : pyCapitalize t ++ "Type" ≠ "Unit")
    (h3 : pyCapitalize t ++ "Type" ≠ "Price")
    (h4 : pyCapitalize t ++ "Type" ≠ "id")
    (h5 : pyCapitalize t ++ "Type" ≠ "name")
    (items : List MasterItem) :
    ∀ i : ℕ, loadRows t fresh i (items.map (savedRowOf (pyCapitalize t ++ "Type")))
      = .ok (items.map loadedRowOf) := by
  induction items with
  | nil => intro i; rfl
  | cons m rest ih =>
    intro i
    simp only [List.map_cons, loadRows, loadRow_savedRow t (fresh i) m h1 h2 h3 h4 h5,
      ih (i + 1)]

theorem loadMasterCsv_roundTrip_core (t : String) (items : List MasterItem)
    (fresh : ℕ → String)
    (h1 : pyCapitalize t ++ "Type" ≠ "SerialNo")
    (h2 : pyCapitalize t ++ "Type" ≠ "Unit")
    (h3 : pyCapitalize t ++ "Type" ≠ "Price")
    (h4 : pyCapitalize t ++ "Type" ≠ "id")
    (h5 : pyCapitalize t ++ "Type" ≠ "name") :
    loadMasterCsv t (some (saveMasterCsv t (items.map MasterItem.toDict))) fresh
      = .ok (items.map loadedRowOf) := by
  cases items with
  | nil => rfl
  | cons m rest =>
    rw [saveMasterCsv_map_toDict t (m :: rest) (by simp)]
    unfold loadMasterCsv
    exact loadRows_savedRows t fresh h1 h2 h3 h4 h5 (m :: rest) 0

/-- C6: for each of the three catalogs, saving a list of master items to
the tabular store and loading it back succeeds and yields rows with the
same `(name, unit, price)` triples in the same order and the ids
preserved; on disk the canonical `name` field is renamed to the
category-specific type column (no `name` column exists in the file), and
the load renames it back. -/
theorem C6_round_trip (t : String) (items : List MasterItem) (fresh : ℕ → String)
    (ht : t = "labor" ∨ t = "material" ∨ t = "equipment") :
    loadMasterCsv t (some (saveMasterCsv t (items.map MasterItem.toDict))) fresh
      = .ok (items.map loadedRowOf)
    ∧ (items.map loadedRowOf).map
        (fun r => (aGet r "name", aGet r "Unit", aGet r "Price"))
      = items.map
        (fun m => (some (PyVal.str m.name), some (PyVal.str m.unit), some (PyVal.num m.price)))
    ∧ (items.map loadedRowOf).map (fun r => aGet r "id")
      = items.map (fun m => some (PyVal.str m.id))
    ∧ (saveMasterCsv t (items.map MasterItem.toDict)).map
        (fun r => (aGet r (pyCapitalize t ++ "Type"), aGet r "name"))
      = items.map (fun m => (some (PyVal.str m.name), (none : Option PyVal))) := by
  rcases ht with rfl | rfl | rfl <;>
  · refine ⟨loadMasterCsv_roundTrip_core _ items fresh (by decide) (by decide) (by decide)
      (by decide) (by decide), ?_, ?_, ?_⟩
    · rw [List.map_map]
      rfl
    · rw [List.map_map]
      rfl
    · cases items with
      | nil => rfl
      | cons m rest =>
        rw [saveMasterCsv_map_toDict _ _ (by simp), List.map_map]
        rfl

/-- Witness for C6 at a one-item labor catalog. -/
theorem C6_round_trip_witness :
    loadMasterCsv "labor" (some (saveMasterCsv "labor" ([mItemW].map MasterItem.toDict))) f0
      = .ok ([mItemW].map loadedRowOf)
    ∧ ([mItemW].map loadedRowOf).map
        (fun r => (aGet r "name", aGet r "Unit", aGet r "Price"))
      = [(some (PyVal.str "Mason"), some (PyVal.str "PerDay"),
          some (PyVal.num (mkRat 500 1)))] := by
  have h := C6_round_trip "labor" [mItemW] f0 (Or.inl rfl)
  exact ⟨h.1, h.2.1.trans (by decide)⟩
